import Mathlib

/-!
Verification of the konduit-serving-examples configuration/request contract.

The repository is a set of tutorial notebooks that build configuration
records (`ServingConfig`, `ModelStep`, `PythonStep`, `InferenceConfiguration`),
serialize them with `as_dict`, launch an external server process, and issue
HTTP predictions through a small `Client`.  The konduit SDK that implements
these classes is not part of the repository; the notebooks record the exact
output of `as_dict` (notebooks 02 and 03), and the YAML notebook documents
the remaining behaviour.  The definitions below embed that data model and
serializer; SDK internals that the notebooks only call are modelled from the
specification and marked as such.
-/

namespace Konduit

/-- A JSON-like document value, the wire format produced by `as_dict`.
`smap` is a plain string-to-string dictionary (such as `inputDataTypes`)
and `omap` a plain dictionary of documents (such as `pythonConfigs`); in
the Python source these are ordinary dicts carrying no type discriminator,
in contrast to `obj`, the serialized form of a configuration record. -/
inductive JValue where
  | str : String → JValue
  | num : Nat → JValue
  | bool : Bool → JValue
  | smap : List (String × String) → JValue
  | arr : List JValue → JValue
  | omap : List (String × JValue) → JValue
  | obj : List (String × JValue) → JValue
deriving Repr

/-- Key lookup in a serialized object, as a reader of the document. -/
def JValue.lookup (j : JValue) (key : String) : Option JValue :=
  match j with
  | .obj fields => fields.lookup key
  | _ => none

/-- Modelled from the spec: the konduit SDK class `TensorDataTypesConfig`
is not in the repository; the notebooks construct it from the dictionary
`input_data_types` mapping column names to data-type strings. -/
structure TensorDataTypesConfig where
  input_data_types : List (String × String)
deriving Repr, DecidableEq

/-- Modelled from the spec: the konduit SDK class `ModelConfigType`
(fields `model_type`, `model_loading_path`) is not in the repository. -/
structure ModelConfigType where
  model_type : String
  model_loading_path : String
deriving Repr, DecidableEq

/-- Modelled from the spec: the konduit SDK classes `ModelConfig` and its
subclass `TensorFlowConfig` are not in the repository; both carry a
`TensorDataTypesConfig` and a `ModelConfigType`, and serialize under their
own class name (`typeName` is `ModelConfig` or `TensorFlowConfig`, as seen
in the recorded `as_dict` outputs of notebooks 02 and 03). -/
structure ModelConfig where
  typeName : String
  tensor_data_types_config : TensorDataTypesConfig
  model_config_type : ModelConfigType
deriving Repr, DecidableEq

/-- Modelled from the spec: the konduit SDK class `ParallelInferenceConfig`
(field `workers`) is not in the repository. -/
structure ParallelInferenceConfig where
  workers : Nat
deriving Repr, DecidableEq

/-- Modelled from the spec: the konduit SDK class `ModelStep` is not in the
repository; the notebooks pass `model_config`, `parallel_inference_config`,
`input_names` and `output_names`. -/
structure ModelStep where
  model_config : ModelConfig
  parallel_inference_config : ParallelInferenceConfig
  input_names : List String
  output_names : List String
deriving Repr, DecidableEq

/-- Modelled from the spec: the konduit SDK class `PythonConfig` is not in
the repository; notebook 05 passes `python_code`, `python_inputs`,
`python_outputs` and `python_path`. -/
structure PythonConfig where
  python_code : String
  python_inputs : List (String × String)
  python_outputs : List (String × String)
  python_path : String
deriving Repr, DecidableEq

/-- Modelled from the spec: the konduit SDK class `PythonStep` is not in
the repository.  Per the YAML notebook, `input_names` and `output_names`
are arguments of the step and default to the name `default`; each call of
`.step` registers one python config under its input name. -/
structure PythonStep where
  input_names : List String
  output_names : List String
  python_configs : List (String × PythonConfig)
deriving Repr, DecidableEq

/-- Modelled from the spec: `PythonStep()` starts with no registered
steps. -/
def PythonStep.empty : PythonStep :=
  { input_names := [], output_names := [], python_configs := [] }

/-- Modelled from the spec: the `.step` method of `PythonStep`.  Notebook
05 calls `.step(input_name="input1", python_config=python_config)`; per
the YAML notebook the `input_name` and `output_name` arguments default to
`default`, and the registered `python_config` (its `python_inputs` /
`python_outputs` included) does not influence the step names. -/
def PythonStep.step (s : PythonStep) (python_config : PythonConfig)
    (input_name : String := "default") (output_name : String := "default") :
    PythonStep :=
  { input_names := s.input_names ++ [input_name]
    output_names := s.output_names ++ [output_name]
    python_configs := s.python_configs ++ [(input_name, python_config)] }

/-- A pipeline step is discriminated by kind: a model step or a python
(script) step, per the spec's data model. -/
inductive PipelineStep where
  | model : ModelStep → PipelineStep
  | python : PythonStep → PipelineStep
deriving Repr, DecidableEq

/-- Modelled from the spec: the konduit SDK class `ServingConfig` is not
in the repository.  The notebooks pass `http_port`, `input_data_type` and
`output_data_type`; notebook 05 passes only `http_port`.  The recorded
`as_dict` outputs of notebooks 02 and 03 show `logTimings: True` although
the notebooks never pass `log_timings`, so the flag defaults to true. -/
structure ServingConfig where
  http_port : Nat
  input_data_type : String := "NUMPY"
  output_data_type : String := "NUMPY"
  log_timings : Bool := true
deriving Repr, DecidableEq

/-- The aggregate configuration: serving options plus the ordered list of
pipeline steps, as constructed in every notebook. -/
structure InferenceConfiguration where
  serving_config : ServingConfig
  pipeline_steps : List PipelineStep
deriving Repr, DecidableEq

/-- Serializer for `TensorDataTypesConfig`, transcribed from the recorded
`as_dict` output in notebooks 02 and 03. -/
def TensorDataTypesConfig.asDict (c : TensorDataTypesConfig) : JValue :=
  .obj [("@type", .str "TensorDataTypesConfig"),
        ("inputDataTypes", .smap c.input_data_types)]

/-- Serializer for `ModelConfigType`, transcribed from the recorded
`as_dict` output in notebooks 02 and 03. -/
def ModelConfigType.asDict (c : ModelConfigType) : JValue :=
  .obj [("@type", .str "ModelConfigType"),
        ("modelType", .str c.model_type),
        ("modelLoadingPath", .str c.model_loading_path)]

/-- Serializer for `ModelConfig`, transcribed from the recorded `as_dict`
output in notebooks 02 and 03 (the `@type` value is the concrete class
name, `TensorFlowConfig` in notebook 02 and `ModelConfig` in 03). -/
def ModelConfig.asDict (c : ModelConfig) : JValue :=
  .obj [("@type", .str c.typeName),
        ("tensorDataTypesConfig", c.tensor_data_types_config.asDict),
        ("modelConfigType", c.model_config_type.asDict)]

/-- Serializer for `ParallelInferenceConfig`, transcribed from the
recorded `as_dict` output in notebooks 02 and 03. -/
def ParallelInferenceConfig.asDict (c : ParallelInferenceConfig) : JValue :=
  .obj [("@type", .str "ParallelInferenceConfig"),
        ("workers", .num c.workers)]

/-- Serializer for `ModelStep`, transcribed from the recorded `as_dict`
output in notebooks 02 and 03. -/
def ModelStep.asDict (s : ModelStep) : JValue :=
  .obj [("@type", .str "ModelStep"),
        ("inputNames", .arr (s.input_names.map .str)),
        ("outputNames", .arr (s.output_names.map .str)),
        ("modelConfig", s.model_config.asDict),
        ("parallelInferenceConfig", s.parallel_inference_config.asDict)]

/-- Modelled from the spec: serializer for `PythonConfig`; the konduit SDK
serializer is not in the repository and notebook 05 does not print it, so
the fields follow the constructor arguments, camel-cased like every other
record, with the `@type` discriminator every record carries. -/
def PythonConfig.asDict (c : PythonConfig) : JValue :=
  .obj [("@type", .str "PythonConfig"),
        ("pythonCode", .str c.python_code),
        ("pythonInputs", .smap c.python_inputs),
        ("pythonOutputs", .smap c.python_outputs),
        ("pythonPath", .str c.python_path)]

/-- Modelled from the spec: serializer for `PythonStep`; each registered
python config is serialized under its input name. -/
def PythonStep.asDict (s : PythonStep) : JValue :=
  .obj [("@type", .str "PythonStep"),
        ("inputNames", .arr (s.input_names.map .str)),
        ("outputNames", .arr (s.output_names.map .str)),
        ("pythonConfigs",
          .omap (s.python_configs.map fun kv => (kv.1, kv.2.asDict)))]

/-- Serializer for a pipeline step: dispatch on the step kind. -/
def PipelineStep.asDict : PipelineStep → JValue
  | .model s => s.asDict
  | .python s => s.asDict

/-- Serializer for `ServingConfig`, transcribed from the recorded
`as_dict` output in notebooks 02 and 03. -/
def ServingConfig.asDict (c : ServingConfig) : JValue :=
  .obj [("@type", .str "ServingConfig"),
        ("httpPort", .num c.http_port),
        ("inputDataType", .str c.input_data_type),
        ("outputDataType", .str c.output_data_type),
        ("logTimings", .bool c.log_timings)]

/-- Serializer for `InferenceConfiguration`, transcribed from the recorded
`as_dict` output in notebooks 02 and 03: `@type`, then the array
`pipelineSteps`, then the object `servingConfig`. -/
def InferenceConfiguration.asDict (c : InferenceConfiguration) : JValue :=
  .obj [("@type", .str "InferenceConfiguration"),
        ("pipelineSteps", .arr (c.pipeline_steps.map PipelineStep.asDict)),
        ("servingConfig", c.serving_config.asDict)]

/-- Reader for a serialized string list (`inputNames` / `outputNames`). -/
def strList : List JValue → Option (List String)
  | [] => some []
  | .str s :: rest => (strList rest).map (s :: ·)
  | _ => none

/-- Reader for `TensorDataTypesConfig` documents. -/
def TensorDataTypesConfig.ofDict : JValue → Option TensorDataTypesConfig
  | .obj [("@type", .str "TensorDataTypesConfig"),
          ("inputDataTypes", .smap m)] => some ⟨m⟩
  | _ => none

/-- Reader for `ModelConfigType` documents. -/
def ModelConfigType.ofDict : JValue → Option ModelConfigType
  | .obj [("@type", .str "ModelConfigType"),
          ("modelType", .str t),
          ("modelLoadingPath", .str p)] => some ⟨t, p⟩
  | _ => none

/-- Reader for `ModelConfig` documents (any concrete class name). -/
def ModelConfig.ofDict : JValue → Option ModelConfig
  | .obj [("@type", .str n),
          ("tensorDataTypesConfig", td),
          ("modelConfigType", mct)] => do
      some ⟨n, ← TensorDataTypesConfig.ofDict td, ← ModelConfigType.ofDict mct⟩
  | _ => none

/-- Reader for `ParallelInferenceConfig` documents. -/
def ParallelInferenceConfig.ofDict : JValue → Option ParallelInferenceConfig
  | .obj [("@type", .str "ParallelInferenceConfig"),
          ("workers", .num w)] => some ⟨w⟩
  | _ => none

/-- Reader for `ModelStep` documents. -/
def ModelStep.ofDict : JValue → Option ModelStep
  | .obj [("@type", .str "ModelStep"),
          ("inputNames", .arr ins),
          ("outputNames", .arr outs),
          ("modelConfig", mc),
          ("parallelInferenceConfig", pic)] => do
      some ⟨← ModelConfig.ofDict mc, ← ParallelInferenceConfig.ofDict pic,
            ← strList ins, ← strList outs⟩
  | _ => none

/-- Reader for `PythonConfig` documents. -/
def PythonConfig.ofDict : JValue → Option PythonConfig
  | .obj [("@type", .str "PythonConfig"),
          ("pythonCode", .str code),
          ("pythonInputs", .smap ins),
          ("pythonOutputs", .smap outs),
          ("pythonPath", .str path)] => some ⟨code, ins, outs, path⟩
  | _ => none

/-- Reader for the `pythonConfigs` map of a `PythonStep` document. -/
def pythonConfigList : List (String × JValue) → Option (List (String × PythonConfig))
  | [] => some []
  | (k, v) :: rest => do
      some ((k, ← PythonConfig.ofDict v) :: (← pythonConfigList rest))

/-- Reader for `PythonStep` documents. -/
def PythonStep.ofDict : JValue → Option PythonStep
  | .obj [("@type", .str "PythonStep"),
          ("inputNames", .arr ins),
          ("outputNames", .arr outs),
          ("pythonConfigs", .omap cfgs)] => do
      some ⟨← strList ins, ← strList outs, ← pythonConfigList cfgs⟩
  | _ => none

/-- Reader for a pipeline-step document: dispatch on the `@type`
discriminator. -/
def PipelineStep.ofDict (j : JValue) : Option PipelineStep :=
  match j.lookup "@type" with
  | some (.str "ModelStep") => (ModelStep.ofDict j).map .model
  | some (.str "PythonStep") => (PythonStep.ofDict j).map .python
  | _ => none

/-- Reader for the `pipelineSteps` array. -/
def stepList : List JValue → Option (List PipelineStep)
  | [] => some []
  | j :: rest => do some ((← PipelineStep.ofDict j) :: (← stepList rest))

/-- Reader for `ServingConfig` documents. -/
def ServingConfig.ofDict : JValue → Option ServingConfig
  | .obj [("@type", .str "ServingConfig"),
          ("httpPort", .num p),
          ("inputDataType", .str i),
          ("outputDataType", .str o),
          ("logTimings", .bool t)] => some ⟨p, i, o, t⟩
  | _ => none

/-- Reader for `InferenceConfiguration` documents. -/
def InferenceConfiguration.ofDict : JValue → Option InferenceConfiguration
  | .obj [("@type", .str "InferenceConfiguration"),
          ("pipelineSteps", .arr steps),
          ("servingConfig", sc)] => do
      some ⟨← ServingConfig.ofDict sc, ← stepList steps⟩
  | _ => none

/-- Reading back a serialized string list recovers the list. -/
theorem strList_map_str (names : List String) :
    strList (names.map JValue.str) = some names := by
  induction names with
  | nil => rfl
  | cons n rest ih => simp [strList, ih]

/-- Reading back a serialized `TensorDataTypesConfig` recovers it. -/
theorem tensorDataTypesConfig_roundtrip (c : TensorDataTypesConfig) :
    TensorDataTypesConfig.ofDict c.asDict = some c := rfl

/-- Reading back a serialized `ModelConfigType` recovers it. -/
theorem modelConfigType_roundtrip (c : ModelConfigType) :
    ModelConfigType.ofDict c.asDict = some c := rfl

/-- Reading back a serialized `ModelConfig` recovers it. -/
theorem modelConfig_roundtrip (c : ModelConfig) :
    ModelConfig.ofDict c.asDict = some c := rfl

/-- Reading back a serialized `ParallelInferenceConfig` recovers it. -/
theorem parallelInferenceConfig_roundtrip (c : ParallelInferenceConfig) :
    ParallelInferenceConfig.ofDict c.asDict = some c := rfl

/-- Reading back a serialized `ModelStep` recovers it. -/
theorem modelStep_roundtrip (s : ModelStep) :
    ModelStep.ofDict s.asDict = some s := by
  simp [ModelStep.asDict, ModelStep.ofDict, modelConfig_roundtrip,
        parallelInferenceConfig_roundtrip, strList_map_str]

/-- Reading back a serialized `PythonConfig` recovers it. -/
theorem pythonConfig_roundtrip (c : PythonConfig) :
    PythonConfig.ofDict c.asDict = some c := rfl

/-- Reading back the serialized `pythonConfigs` map recovers it. -/
theorem pythonConfigList_map (cfgs : List (String × PythonConfig)) :
    pythonConfigList (cfgs.map fun kv => (kv.1, kv.2.asDict)) = some cfgs := by
  induction cfgs with
  | nil => rfl
  | cons kv rest ih =>
      simp [pythonConfigList, pythonConfig_roundtrip, ih]

/-- Reading back a serialized `PythonStep` recovers it. -/
theorem pythonStep_roundtrip (s : PythonStep) :
    PythonStep.ofDict s.asDict = some s := by
  simp [PythonStep.asDict, PythonStep.ofDict, strList_map_str,
        pythonConfigList_map]

/-- Reading back a serialized pipeline step recovers it. -/
theorem pipelineStep_roundtrip (s : PipelineStep) :
    PipelineStep.ofDict s.asDict = some s := by
  cases s with
  | model m =>
      simp [PipelineStep.ofDict, PipelineStep.asDict, ModelStep.asDict,
            JValue.lookup, List.lookup]
      simpa [ModelStep.asDict] using modelStep_roundtrip m
  | python p =>
      simp [PipelineStep.ofDict, PipelineStep.asDict, PythonStep.asDict,
            JValue.lookup, List.lookup]
      simpa [PythonStep.asDict] using pythonStep_roundtrip p

/-- Reading back the serialized `pipelineSteps` array recovers it. -/
theorem stepList_map (steps : List PipelineStep) :
    stepList (steps.map PipelineStep.asDict) = some steps := by
  induction steps with
  | nil => rfl
  | cons s rest ih => simp [stepList, pipelineStep_roundtrip, ih]

/-- Reading back a serialized `ServingConfig` recovers it. -/
theorem servingConfig_roundtrip (c : ServingConfig) :
    ServingConfig.ofDict c.asDict = some c := rfl

/-- Reading back a serialized `InferenceConfiguration` recovers it. -/
theorem inferenceConfiguration_roundtrip (c : InferenceConfiguration) :
    InferenceConfiguration.ofDict c.asDict = some c := by
  simp [InferenceConfiguration.asDict, InferenceConfiguration.ofDict,
        servingConfig_roundtrip, stepList_map]

/-- Modelled from the spec: the konduit SDK class `Client` is not in the
repository; the notebooks construct it from `input_names`, `output_names`,
the three data-format strings and the server url (or just the port in
notebook 05). -/
structure Client where
  input_names : List String
  output_names : List String
  input_type : String := "NUMPY"
  endpoint_output_type : String := "NUMPY"
  return_output_type : String := "NUMPY"
  url : String := ""
deriving Repr, DecidableEq

/-- Modelled from the spec: the client decodes the external server's raw
response (one array per declared output) into a mapping keyed by the
declared output names; inference itself is external, so the payload type
is abstract. -/
def Client.decodeResponse {α : Type} (c : Client) (raw : List α) :
    Option (List (String × α)) :=
  if raw.length = c.output_names.length then some (c.output_names.zip raw)
  else none

/-- Modelled from the spec: `Client.predict` builds the request from the
named inputs (the request is keyed by the client's declared input names)
and decodes the raw response into the declared output names. -/
def Client.predict {α β : Type} (c : Client) (inputs : List (String × α))
    (raw : List β) : Option (List (String × β)) :=
  if inputs.map Prod.fst = c.input_names then c.decodeResponse raw else none

/-- What the OS-level effect of a `stop` call was: either the live
subprocess was terminated, or there was nothing to do. -/
inductive StopEffect where
  | terminated : Nat → StopEffect
  | noop : StopEffect
deriving Repr, DecidableEq

/-- Modelled from the spec: the process-manager state of `Server` is the
optional handle of the external subprocess, owned exclusively by the
manager for its lifetime. -/
structure ServerProc where
  process : Option Nat
deriving Repr, DecidableEq

/-- Modelled from the spec: starting the server records the handle of the
spawned subprocess; the spawn itself is external and may fail, and its
error is surfaced unmodified. -/
def ServerProc.startWith (spawn : Except String Nat) :
    Except String ServerProc :=
  match spawn with
  | .ok pid => .ok { process := some pid }
  | .error e => .error e

/-- Modelled from the spec: `stop` terminates the subprocess when one is
running and is a harmless no-op when the process is already stopped. -/
def ServerProc.stop (s : ServerProc) : ServerProc × StopEffect :=
  match s.process with
  | some pid => ({ process := none }, .terminated pid)
  | none => ({ process := none }, .noop)

/-- Modelled from the spec: the request path forwards the HTTP layer's
result; a transport error is surfaced unmodified to the caller, with no
retry or recovery. -/
def Client.predictWire {α β : Type} (c : Client) (inputs : List (String × α))
    (http : Except String (List β)) : Except String (List (String × β)) :=
  match http with
  | .error e => .error e
  | .ok raw =>
      match c.predict inputs raw with
      | some resp => .ok resp
      | none => .error "bad response shape"

/-- Request acceptance at the step level: the request must be keyed
exactly by the step's declared input names. -/
def stepAcceptsRequest {α : Type} (s : PythonStep)
    (req : List (String × α)) : Bool :=
  req.map Prod.fst == s.input_names

/-- Does a serialized record carry an `@type` discriminator with a string
value? -/
def hasTypeKey (fields : List (String × JValue)) : Bool :=
  match fields.lookup "@type" with
  | some (.str _) => true
  | _ => false

mutual
/-- Every serialized configuration record (`obj` node) in the document
carries an `@type` discriminator, at every nesting level; plain
dictionaries (`smap`) are data, not records. -/
def recordsTagged : JValue → Bool
  | .obj fields => hasTypeKey fields && recordsTaggedFields fields
  | .omap fields => recordsTaggedFields fields
  | .arr xs => recordsTaggedList xs
  | _ => true

/-- `recordsTagged` over the elements of an array. -/
def recordsTaggedList : List JValue → Bool
  | [] => true
  | x :: xs => recordsTagged x && recordsTaggedList xs

/-- `recordsTagged` over the field values of an object. -/
def recordsTaggedFields : List (String × JValue) → Bool
  | [] => true
  | kv :: fields => recordsTagged kv.2 && recordsTaggedFields fields
end

/-- The serialized type name of a pipeline step. -/
def PipelineStep.typeName : PipelineStep → String
  | .model _ => "ModelStep"
  | .python _ => "PythonStep"

/-- A step document carries its step-specific configuration: a model step
its `modelConfig`, a python step its `pythonConfigs`. -/
def stepCarriesConfig (j : JValue) : Bool :=
  (j.lookup "modelConfig").isSome || (j.lookup "pythonConfigs").isSome

/-- Modelled from the spec: the operations of one serving session, as the
notebooks perform them — build the configuration, serialize it, start the
external process, poll readiness (a fixed sleep/retry loop that may wait
several times before the server answers), send the request, decode the
response, stop the process. -/
inductive Op where
  | build : Op
  | serialize : Op
  | startProc : Op
  | pollWait : Op
  | pollReady : Op
  | request : Op
  | decode : Op
  | stopProc : Op
deriving Repr, DecidableEq

/-- Modelled from the spec: the phase of a serving session between
operations. -/
inductive Phase where
  | init : Phase
  | configured : Phase
  | serialized : Phase
  | started : Phase
  | ready : Phase
  | requested : Phase
  | decoded : Phase
  | stopped : Phase
deriving Repr, DecidableEq

/-- Linear order of the session phases. -/
def Phase.idx : Phase → Nat
  | .init => 0
  | .configured => 1
  | .serialized => 2
  | .started => 3
  | .ready => 4
  | .requested => 5
  | .decoded => 6
  | .stopped => 7

/-- The phase from which an operation can fire: each operation is enabled
in exactly one phase (`pollWait` and `pollReady` both fire while the
process is started but not yet ready). -/
def Op.src : Op → Phase
  | .build => .init
  | .serialize => .configured
  | .startProc => .serialized
  | .pollWait => .started
  | .pollReady => .started
  | .request => .ready
  | .decode => .requested
  | .stopProc => .decoded

/-- Modelled from the spec: the single-threaded, blocking control flow of
a session — each operation fires only from its phase; polling loops in the
started phase until the server is ready. -/
def stepOp : Phase → Op → Option Phase
  | .init, .build => some .configured
  | .configured, .serialize => some .serialized
  | .serialized, .startProc => some .started
  | .started, .pollWait => some .started
  | .started, .pollReady => some .ready
  | .ready, .request => some .requested
  | .requested, .decode => some .decoded
  | .decoded, .stopProc => some .stopped
  | _, _ => none

/-- Run a list of session operations from a phase; `none` when some
operation fires out of order. -/
def runFrom : Phase → List Op → Option Phase
  | p, [] => some p
  | p, o :: os =>
      match stepOp p o with
      | some q => runFrom q os
      | none => none

/-- The trace of a complete session that waited `k` extra poll rounds
before the server became ready. -/
def sessionTrace (k : Nat) : List Op :=
  [.build, .serialize, .startProc] ++ List.replicate k .pollWait ++
    [.pollReady, .request, .decode, .stopProc]

/-- An operation fires only from its source phase. -/
theorem stepOp_src {p : Phase} {o : Op} {q : Phase}
    (h : stepOp p o = some q) : p = o.src := by
  cases p <;> cases o <;> simp [stepOp, Op.src] at h ⊢

/-- A step never decreases the phase index. -/
theorem stepOp_mono {p : Phase} {o : Op} {q : Phase}
    (h : stepOp p o = some q) : p.idx ≤ q.idx := by
  cases p <;> cases o <;> simp [stepOp] at h <;> subst h <;> simp [Phase.idx]

/-- Along a valid run, an operation whose source phase lies strictly below
the current phase can no longer occur. -/
theorem runFrom_no_low {ops : List Op} :
    ∀ {p q : Phase}, runFrom p ops = some q →
      ∀ o : Op, o.src.idx < p.idx → ∀ i, ops.get? i ≠ some o := by
  induction ops with
  | nil => intro p q _ o _ i h; simp [List.get?] at h
  | cons o' os ih =>
      intro p q hrun o hlow i
      simp only [runFrom] at hrun
      cases hstep : stepOp p o' with
      | none => simp [hstep] at hrun
      | some r =>
          rw [hstep] at hrun
          cases i with
          | zero =>
              intro hget
              simp [List.get?] at hget
              subst hget
              rw [stepOp_src hstep] at hlow
              exact lt_irrefl _ hlow
          | succ i' =>
              have hlow' : o.src.idx < r.idx :=
                lt_of_lt_of_le hlow (stepOp_mono hstep)
              simpa [List.get?] using ih hrun o hlow' i'

/-- Along a valid run, an operation with an earlier source phase occurs
before one with a later source phase. -/
theorem runFrom_order {ops : List Op} :
    ∀ {p q : Phase}, runFrom p ops = some q →
      ∀ {o1 o2 : Op}, o1.src.idx < o2.src.idx →
        ∀ {i j : Nat}, ops.get? i = some o1 → ops.get? j = some o2 → i < j := by
  induction ops with
  | nil => intro p q _ o1 o2 _ i j hi _; simp [List.get?] at hi
  | cons o' os ih =>
      intro p q hrun o1 o2 hlt i j hi hj
      simp only [runFrom] at hrun
      cases hstep : stepOp p o' with
      | none => simp [hstep] at hrun
      | some r =>
          rw [hstep] at hrun
          cases j with
          | zero =>
              exfalso
              simp [List.get?] at hj
              subst hj
              rw [← stepOp_src hstep] at hlt
              exact runFrom_no_low (p := p) (q := q)
                (show runFrom p (o' :: os) = some q from
                  by simpa [runFrom, hstep] using hrun) o1 hlt i hi
          | succ j' =>
              cases i with
              | zero => exact Nat.succ_pos j'
              | succ i' =>
                  have := ih hrun hlt (by simpa [List.get?] using hi)
                    (by simpa [List.get?] using hj)
                  omega

/-- No operation is enabled once the session is stopped. -/
theorem runFrom_stopped {ops : List Op}
    (h : runFrom .stopped ops = some .stopped) : ops = [] := by
  cases ops with
  | nil => rfl
  | cons o os => cases o <;> simp [runFrom, stepOp] at h

/-- From the decoded phase, the only completion is a single stop. -/
theorem runFrom_decoded {ops : List Op}
    (h : runFrom .decoded ops = some .stopped) : ops = [.stopProc] := by
  cases ops with
  | nil => simp [runFrom] at h
  | cons o os =>
      cases o <;> simp [runFrom, stepOp] at h
      simp [runFrom_stopped h]

/-- From the requested phase, the only completion decodes then stops. -/
theorem runFrom_requested {ops : List Op}
    (h : runFrom .requested ops = some .stopped) :
    ops = [.decode, .stopProc] := by
  cases ops with
  | nil => simp [runFrom] at h
  | cons o os =>
      cases o <;> simp [runFrom, stepOp] at h
      simp [runFrom_decoded h]

/-- From the ready phase, the only completion requests, decodes and
stops. -/
theorem runFrom_ready {ops : List Op}
    (h : runFrom .ready ops = some .stopped) :
    ops = [.request, .decode, .stopProc] := by
  cases ops with
  | nil => simp [runFrom] at h
  | cons o os =>
      cases o <;> simp [runFrom, stepOp] at h
      simp [runFrom_requested h]

/-- From the started phase, a completed session polls some number of
times, sees the server ready, then requests, decodes and stops. -/
theorem runFrom_started {ops : List Op}
    (h : runFrom .started ops = some .stopped) :
    ∃ k, ops = List.replicate k .pollWait ++
      [.pollReady, .request, .decode, .stopProc] := by
  induction ops with
  | nil => simp [runFrom] at h
  | cons o os ih =>
      cases o <;> simp [runFrom, stepOp] at h
      case pollWait =>
          obtain ⟨k, hk⟩ := ih h
          exact ⟨k + 1, by simp [hk, List.replicate_succ]⟩
      case pollReady =>
          exact ⟨0, by simp [runFrom_ready h]⟩

/-- Every complete session run is a session trace: the operations occur in
exactly the order build, serialize, start, poll readiness (with some
number of extra waits), request, decode, stop. -/
theorem runFrom_init {ops : List Op}
    (h : runFrom .init ops = some .stopped) :
    ∃ k, ops = sessionTrace k := by
  cases ops with
  | nil => simp [runFrom] at h
  | cons o os =>
      cases o <;> simp [runFrom, stepOp] at h
      cases os with
      | nil => simp [runFrom] at h
      | cons o' os' =>
          cases o' <;> simp [runFrom, stepOp] at h
          cases os' with
          | nil => simp [runFrom] at h
          | cons o'' os'' =>
              cases o'' <;> simp [runFrom, stepOp] at h
              obtain ⟨k, hk⟩ := runFrom_started h
              exact ⟨k, by simp [sessionTrace, hk]⟩

/-- Conversely, every session trace is a valid complete run. -/
theorem runFrom_sessionTrace (k : Nat) :
    runFrom .init (sessionTrace k) = some .stopped := by
  have hstart : ∀ n, runFrom Phase.started
      (List.replicate n Op.pollWait ++
        [Op.pollReady, Op.request, Op.decode, Op.stopProc]) =
      some Phase.stopped := by
    intro n
    induction n with
    | zero => rfl
    | succ m ihm => simpa [List.replicate_succ, runFrom, stepOp] using ihm
  simpa [sessionTrace, runFrom, stepOp] using hstart k

/-- An array of serialized strings contains no untagged record. -/
theorem recordsTaggedList_strs (names : List String) :
    recordsTaggedList (names.map JValue.str) = true := by
  induction names with
  | nil => simp [recordsTaggedList]
  | cons n rest ih => simp [recordsTaggedList, recordsTagged, ih]

/-- Every serialized python config in the `pythonConfigs` map carries its
discriminator. -/
theorem recordsTaggedFields_pyconfigs (cfgs : List (String × PythonConfig)) :
    recordsTaggedFields (cfgs.map fun kv => (kv.1, kv.2.asDict)) = true := by
  induction cfgs with
  | nil => simp [recordsTaggedFields]
  | cons kv rest ih =>
      simpa [recordsTaggedFields, recordsTagged, recordsTaggedList,
             PythonConfig.asDict, hasTypeKey, List.lookup] using ih

/-- Every serialized pipeline step is fully discriminator-tagged. -/
theorem recordsTagged_step (s : PipelineStep) :
    recordsTagged s.asDict = true := by
  cases s with
  | model m =>
      simp [PipelineStep.asDict, ModelStep.asDict, ModelConfig.asDict,
            TensorDataTypesConfig.asDict, ModelConfigType.asDict,
            ParallelInferenceConfig.asDict, recordsTagged,
            recordsTaggedFields, recordsTaggedList, hasTypeKey, List.lookup,
            recordsTaggedList_strs]
  | python p =>
      simp [PipelineStep.asDict, PythonStep.asDict, recordsTagged,
            recordsTaggedFields, recordsTaggedList, hasTypeKey, List.lookup,
            recordsTaggedList_strs, recordsTaggedFields_pyconfigs]

/-- Every element of the serialized `pipelineSteps` array is fully
discriminator-tagged. -/
theorem recordsTaggedList_steps (steps : List PipelineStep) :
    recordsTaggedList (steps.map PipelineStep.asDict) = true := by
  induction steps with
  | nil => simp [recordsTaggedList]
  | cons s rest ih => simp [recordsTaggedList, recordsTagged_step, ih]

/-- The sample configuration of notebook 02: a TensorFlow BERT model step
with three input nodes, one output node, one parallel-inference worker,
serving NUMPY in and out on the port the notebook drew. -/
def sampleConfig : InferenceConfiguration :=
  { serving_config := { http_port := 12192 }
    pipeline_steps :=
      [.model
        { model_config :=
            { typeName := "TensorFlowConfig"
              tensor_data_types_config :=
                ⟨[("IteratorGetNext:0", "INT32"),
                  ("IteratorGetNext:1", "INT32"),
                  ("IteratorGetNext:4", "INT32")]⟩
              model_config_type := ⟨"TENSORFLOW", "bert_mrpc_frozen.pb"⟩ }
          parallel_inference_config := ⟨1⟩
          input_names := ["IteratorGetNext:0", "IteratorGetNext:1",
                          "IteratorGetNext:4"]
          output_names := ["loss/Softmax"] }] }

/-- The python config of notebook 05: a script taking `image` and
producing `boxes`. -/
def samplePyConfig : PythonConfig :=
  { python_code := "onnx face detector"
    python_inputs := [("image", "NDARRAY")]
    python_outputs := [("boxes", "NDARRAY")]
    python_path := "." }

/-- A second python config, differing from `samplePyConfig` in every
field. -/
def samplePyConfigB : PythonConfig :=
  { python_code := "other"
    python_inputs := [("first", "NDARRAY")]
    python_outputs := [("second", "NDARRAY")]
    python_path := "/opt" }

/-- Modelled from the spec: construction of `ServingConfig` as in
notebooks 02 and 03, which pass `http_port`, `input_data_type` and
`output_data_type` but no `log_timings` argument. -/
def ServingConfig.make (http_port : Nat)
    (input_data_type output_data_type : String) : ServingConfig :=
  { http_port := http_port
    input_data_type := input_data_type
    output_data_type := output_data_type }

/-- Modelled from the spec: construction of `ServingConfig` as in
notebook 05, which passes only `http_port`. -/
def ServingConfig.makePortOnly (http_port : Nat) : ServingConfig :=
  { http_port := http_port }

/-- C1: serializing a configuration built from the user-entered fields
(serving options and pipeline steps) to the config document and reading
the document back yields exactly the field names and values entered: the
reader recovers the configuration record verbatim. -/
theorem claim_C1_config_roundtrip (c : InferenceConfiguration) :
    InferenceConfiguration.ofDict c.asDict = some c :=
  inferenceConfiguration_roundtrip c

/-- C2: for every client and every request with the declared named
inputs, the decoded response returned by predict is keyed exactly by the
client's declared output names, whatever the numeric payload. -/
theorem claim_C2_response_keys {α β : Type} (c : Client)
    (inputs : List (String × α)) (raw : List β)
    (resp : List (String × β)) (h : c.predict inputs raw = some resp) :
    resp.map Prod.fst = c.output_names := by
  unfold Client.predict at h
  split at h
  · unfold Client.decodeResponse at h
    split at h
    · cases h
      exact List.map_fst_zip _ _ (le_of_eq (by omega))
    · cases h
  · cases h

/-- Witness for C2 at the client of notebook 02 with a one-element
response. -/
theorem claim_C2_witness :
    ([("loss/Softmax", (1 : Nat))]).map Prod.fst =
      ({ input_names := ["x"], output_names := ["loss/Softmax"] } :
        Client).output_names :=
  claim_C2_response_keys
    ({ input_names := ["x"], output_names := ["loss/Softmax"] } : Client)
    [("x", (0 : Nat))] [(1 : Nat)] _ (by rfl)

/-- C3: stopping the server process is idempotent: stopping an
already-stopped process is a harmless no-op leaving the state unchanged,
and a second stop (after a start and a stop) leaves the process-manager
state identical to a single stop. -/
theorem claim_C3_stop_idempotent (s : ServerProc) (pid : Nat) :
    ServerProc.stop { process := none } =
      (({ process := none } : ServerProc), StopEffect.noop) ∧
    (s.stop.1).stop = (s.stop.1, StopEffect.noop) ∧
    ((({ process := some pid } : ServerProc).stop.1).stop.1 =
      ({ process := some pid } : ServerProc).stop.1) := by
  refine ⟨rfl, ?_, rfl⟩
  cases s with
  | mk p => cases p <;> rfl

/-- C4: the serialized inference configuration matches the wire schema: a
`servingConfig` object whose `httpPort` equals the configured port, and a
`pipelineSteps` array each of whose elements carries its step-specific
model (or python) config. -/
theorem claim_C4_schema (c : InferenceConfiguration) :
    c.asDict.lookup "servingConfig" = some c.serving_config.asDict ∧
    c.serving_config.asDict.lookup "httpPort" =
      some (.num c.serving_config.http_port) ∧
    c.asDict.lookup "pipelineSteps" =
      some (.arr (c.pipeline_steps.map PipelineStep.asDict)) ∧
    ∀ s ∈ c.pipeline_steps, stepCarriesConfig s.asDict = true := by
  refine ⟨?_, ?_, ?_, ?_⟩
  · simp [InferenceConfiguration.asDict, JValue.lookup, List.lookup]
  · simp [ServingConfig.asDict, JValue.lookup, List.lookup]
  · simp [InferenceConfiguration.asDict, JValue.lookup, List.lookup]
  · intro s _
    cases s <;>
      simp [PipelineStep.asDict, ModelStep.asDict, PythonStep.asDict,
            stepCarriesConfig, JValue.lookup, List.lookup]

/-- Witness for C4 at the sample configuration of notebook 02. -/
theorem claim_C4_witness :
    sampleConfig.asDict.lookup "servingConfig" =
      some sampleConfig.serving_config.asDict ∧
    sampleConfig.serving_config.asDict.lookup "httpPort" =
      some (.num sampleConfig.serving_config.http_port) ∧
    sampleConfig.asDict.lookup "pipelineSteps" =
      some (.arr (sampleConfig.pipeline_steps.map PipelineStep.asDict)) ∧
    ∀ s ∈ sampleConfig.pipeline_steps, stepCarriesConfig s.asDict = true :=
  claim_C4_schema sampleConfig

/-- C5: in every complete serving session, the operations occur in the
order build config, serialize, start external process, poll readiness
until ready, send request, decode response, stop process: every complete
run is a session trace, and any operation with an earlier source phase
occurs before any operation with a later one. -/
theorem claim_C5_session_order (ops : List Op)
    (h : runFrom .init ops = some .stopped) :
    (∃ k, ops = sessionTrace k) ∧
    ∀ (o1 o2 : Op), o1.src.idx < o2.src.idx →
      ∀ i j, ops.get? i = some o1 → ops.get? j = some o2 → i < j :=
  ⟨runFrom_init h, fun _ _ hlt _ _ hi hj => runFrom_order h hlt hi hj⟩

/-- Witness for C5 at the session that waited two extra poll rounds. -/
theorem claim_C5_witness :
    (∃ k, sessionTrace 2 = sessionTrace k) ∧
    ∀ (o1 o2 : Op), o1.src.idx < o2.src.idx →
      ∀ i j, (sessionTrace 2).get? i = some o1 →
        (sessionTrace 2).get? j = some o2 → i < j :=
  claim_C5_session_order (sessionTrace 2) (by rfl)

/-- C6: configuration records are immutable value objects serialized
verbatim: the serialized document determines the constructed record
exactly — two configurations have the same `as_dict` document precisely
when they are the same record, so serialization neither loses nor alters
any field. -/
theorem claim_C6_value_object (c1 c2 : InferenceConfiguration) :
    c1.asDict = c2.asDict ↔ c1 = c2 := by
  constructor
  · intro h
    have h1 := inferenceConfiguration_roundtrip c1
    rw [h, inferenceConfiguration_roundtrip c2] at h1
    exact (Option.some_inj.mp h1).symm
  · intro h
    rw [h]

/-- Witness for C6 at the sample configuration of notebook 02. -/
theorem claim_C6_witness :
    sampleConfig.asDict = sampleConfig.asDict ↔ sampleConfig = sampleConfig :=
  claim_C6_value_object sampleConfig sampleConfig

/-- C7: failures of the external process or of the HTTP layer are
surfaced unmodified to the caller: a spawn error is the caller-visible
result of start, and a transport error is the caller-visible result of
predict, with no retry or recovery. -/
theorem claim_C7_error_passthrough {α β : Type} (c : Client)
    (inputs : List (String × α)) (e : String) :
    ServerProc.startWith (.error e) = .error e ∧
    c.predictWire inputs (Except.error e : Except String (List β)) =
      .error e :=
  ⟨rfl, rfl⟩

/-- C8: every record in the serialized configuration document carries an
`@type` discriminator at every nesting level, and its value is the
record's type name at the root, the serving config and each pipeline
step. -/
theorem claim_C8_type_tags (c : InferenceConfiguration) :
    recordsTagged c.asDict = true ∧
    c.asDict.lookup "@type" = some (.str "InferenceConfiguration") ∧
    c.serving_config.asDict.lookup "@type" = some (.str "ServingConfig") ∧
    ∀ s ∈ c.pipeline_steps,
      s.asDict.lookup "@type" = some (.str s.typeName) := by
  refine ⟨?_, rfl, rfl, ?_⟩
  · simp [InferenceConfiguration.asDict, ServingConfig.asDict,
          recordsTagged, recordsTaggedFields, recordsTaggedList,
          hasTypeKey, List.lookup, recordsTaggedList_steps]
  · intro s _
    cases s <;>
      simp [PipelineStep.asDict, PipelineStep.typeName, ModelStep.asDict,
            PythonStep.asDict, JValue.lookup, List.lookup]

/-- Witness for C8 at the sample configuration of notebook 02. -/
theorem claim_C8_witness :
    recordsTagged sampleConfig.asDict = true ∧
    sampleConfig.asDict.lookup "@type" =
      some (.str "InferenceConfiguration") ∧
    sampleConfig.serving_config.asDict.lookup "@type" =
      some (.str "ServingConfig") ∧
    ∀ s ∈ sampleConfig.pipeline_steps,
      s.asDict.lookup "@type" = some (.str s.typeName) :=
  claim_C8_type_tags sampleConfig

/-- C9: a `ServingConfig` constructed without an explicit `log_timings`
argument — with the three arguments of notebooks 02 and 03, or with only
the port as in notebook 05 — nevertheless serializes with
`logTimings: true`: the flag defaults to enabled. -/
theorem claim_C9_logTimings_default (p : Nat) (i o : String) :
    (ServingConfig.make p i o).asDict.lookup "logTimings" =
      some (.bool true) ∧
    (ServingConfig.makePortOnly p).asDict.lookup "logTimings" =
      some (.bool true) ∧
    (ServingConfig.make p i o).log_timings = true :=
  ⟨rfl, rfl, rfl⟩

/-- C10: a `PythonStep` built with `.step` under input name `n` accepts a
predict request exactly when the request is keyed by `n` (never by the
keys of `python_inputs`); the step names default to `default` when not
supplied; and changing the python config leaves the step's input and
output names unchanged. -/
theorem claim_C10_pythonStep_names {α : Type} (cfg cfg' : PythonConfig)
    (n oname : String) (req : List (String × α)) :
    (stepAcceptsRequest (PythonStep.empty.step cfg n oname) req = true →
      req.map Prod.fst = [n]) ∧
    (PythonStep.empty.step cfg).input_names = ["default"] ∧
    (PythonStep.empty.step cfg).output_names = ["default"] ∧
    (PythonStep.empty.step cfg n oname).input_names =
      (PythonStep.empty.step cfg' n oname).input_names ∧
    (PythonStep.empty.step cfg n oname).output_names =
      (PythonStep.empty.step cfg' n oname).output_names := by
  refine ⟨?_, rfl, rfl, rfl, rfl⟩
  intro h
  unfold stepAcceptsRequest PythonStep.step PythonStep.empty at h
  simpa using eq_of_beq h

/-- Witness for C10 at the step of notebook 05 (`input1`) with two
different python configs. -/
theorem claim_C10_witness :
    ([("input1", (0 : Nat))].map Prod.fst = ["input1"]) ∧
    (PythonStep.empty.step samplePyConfig).input_names = ["default"] ∧
    (PythonStep.empty.step samplePyConfig).output_names = ["default"] ∧
    (PythonStep.empty.step samplePyConfig "input1"
      "default").input_names =
      (PythonStep.empty.step samplePyConfigB "input1"
        "default").input_names ∧
    (PythonStep.empty.step samplePyConfig "input1"
      "default").output_names =
      (PythonStep.empty.step samplePyConfigB "input1"
        "default").output_names := by
  have h := claim_C10_pythonStep_names (α := Nat) samplePyConfig
    samplePyConfigB "input1" "default" [("input1", 0)]
  exact ⟨h.1 (by rfl), h.2.1, h.2.2.1, h.2.2.2.1, h.2.2.2.2⟩

end Konduit
